import Mathlib

/-!
Verification of the deployment health-check and reporting scripts
(`scripts/verify-backend.py`, `scripts/verify-frontend.py`,
`scripts/health-check.py`, `scripts/deployment-status.py`).

The scripts are sequential HTTP probes whose orchestration logic is pure:
each probe turns the observed transport outcome (status code, body,
timeout, connection error, unexpected exception) into a result record, and
the checkers/aggregators combine those records.  We embed that logic
shallowly: transport outcomes are an explicit inductive type, the Python
result dicts become Lean structures (every key that the scripts always
initialise is a structure field), and Python `None` becomes `Option.none`.
-/

/-! ## String helpers (Python `in` on `str`, `str.lower`, `f"{x}"`) -/

/-- Byte-for-byte prefix test on character lists. -/
def isPrefixL : List Char → List Char → Bool
  | [], _ => true
  | _ :: _, [] => false
  | p :: ps, c :: cs => p == c && isPrefixL ps cs

/-- Substring search on character lists (naive scan). -/
def containsSub : List Char → List Char → Bool
  | [], pat => pat.isEmpty
  | c :: rest, pat => isPrefixL pat (c :: rest) || containsSub rest pat

/-- Python `pat in s` on strings. -/
def strContains (s pat : String) : Bool := containsSub s.data pat.data

/-- Python `s.lower()`. -/
def lowerStr (s : String) : String := String.mk (s.data.map Char.toLower)

/-- Python `f"{x}"` where `x` is a string-or-`None` value: `None` renders
as the literal text `"None"`. -/
def pyStrOfOpt : Option String → String
  | none => "None"
  | some s => s

/-- Python truthiness of an int-or-`None` value (`None` and `0` are falsy);
used by `check_crud_operations` for `if result["test_anime_id"]:`. -/
def pyTruthyOptInt : Option Int → Bool
  | none => false
  | some n => n != 0

/-! ## CRUD-lifecycle probe (`verify-backend.py`, `check_crud_operations`)

The four sub-operations (`_test_create_anime`, `_test_read_anime`,
`_test_update_anime`, `_test_delete_anime`) each talk to the backend and
return a dict with a `success` flag; create additionally returns the new
`anime_id` (or `None`).  The orchestration in `check_crud_operations` is
embedded below, parametrised by those boundary outcomes. -/

/-- Result dict of `check_crud_operations` (`operation_results` maps each
recorded operation name to its `success` flag, in insertion order). -/
structure CrudChecksResult where
  success : Bool
  operations_tested : Nat
  operations_working : Nat
  operation_results : List (String × Bool)
  test_anime_id : Option Int
  error : Option String
deriving Repr, DecidableEq

/-- Embedding of `check_crud_operations` (verify-backend.py lines
302-363): create always runs; read/update/delete run only when create
succeeded and the returned id is truthy; overall `success` is set iff
`operations_working >= 1`. -/
def check_crud_operations (createSucc : Bool) (createId : Option Int)
    (readSucc updateSucc deleteSucc : Bool) : CrudChecksResult :=
  let r0 : CrudChecksResult :=
    { success := false, operations_tested := 0, operations_working := 0,
      operation_results := [], test_anime_id := none, error := none }
  let r1 : CrudChecksResult := { r0 with
    operation_results := r0.operation_results ++ [("create", createSucc)],
    operations_tested := r0.operations_tested + 1 }
  let r2 : CrudChecksResult :=
    if createSucc then
      let ra : CrudChecksResult :=
        { r1 with operations_working := r1.operations_working + 1,
                  test_anime_id := createId }
      if pyTruthyOptInt ra.test_anime_id then
        let rb : CrudChecksResult := { ra with
          operation_results := ra.operation_results ++ [("read", readSucc)],
          operations_tested := ra.operations_tested + 1 }
        let rc : CrudChecksResult := if readSucc then
          { rb with operations_working := rb.operations_working + 1 } else rb
        let rd : CrudChecksResult := { rc with
          operation_results := rc.operation_results ++ [("update", updateSucc)],
          operations_tested := rc.operations_tested + 1 }
        let re : CrudChecksResult := if updateSucc then
          { rd with operations_working := rd.operations_working + 1 } else rd
        let rf : CrudChecksResult := { re with
          operation_results := re.operation_results ++ [("delete", deleteSucc)],
          operations_tested := re.operations_tested + 1 }
        if deleteSucc then
          { rf with operations_working := rf.operations_working + 1 } else rf
      else ra
    else r1
  if r2.operations_working ≥ 1 then { r2 with success := true }
  else { r2 with error := some "No CRUD operations are working" }

/-! ## Backend suite verdict (`verify-backend.py`,
`run_comprehensive_backend_check`) -/

/-- One entry of the backend suite's `tests` list: the probe's `test` name
and its `success` flag (the only fields the verdict reads). -/
structure BackendTest where
  test : String
  success : Bool
deriving Repr, DecidableEq

/-- Report of `run_comprehensive_backend_check` (the fields the verdict
logic writes). -/
structure BackendReport where
  overall_healthy : Bool
  tests_passed : Nat
  total_tests : Nat
  critical_tests_passed : Nat
  critical_tests_total : Nat
  tests : List BackendTest
deriving Repr, DecidableEq

/-- Embedding of `run_comprehensive_backend_check` (verify-backend.py
lines 480-539), parametrised by the success flag each probe returned.  The
suite always runs the four fixed probes, appends the CRUD probe when
`include_crud`, and sets `overall_healthy` iff every test named in
`critical_tests` succeeded. -/
def run_comprehensive_backend_check
    (basicSucc detailedSucc dbSucc apiSucc crudSucc : Bool)
    (include_crud : Bool) : BackendReport :=
  let tests : List BackendTest :=
    [⟨"basic_health_endpoint", basicSucc⟩,
     ⟨"detailed_health_endpoint", detailedSucc⟩,
     ⟨"database_connectivity", dbSucc⟩,
     ⟨"api_endpoints", apiSucc⟩] ++
    (if include_crud then [⟨"crud_operations", crudSucc⟩] else [])
  let critical_tests : List String :=
    ["basic_health_endpoint", "database_connectivity", "api_endpoints"]
  let critical_passed :=
    (tests.filter (fun t => critical_tests.contains t.test && t.success)).length
  { overall_healthy := critical_passed == critical_tests.length,
    tests_passed := (tests.filter (fun t => t.success)).length,
    total_tests := tests.length,
    critical_tests_passed := critical_passed,
    critical_tests_total := critical_tests.length,
    tests := tests }

/-! ## Transport outcomes

A probe's HTTP call either yields a response (status code, reason phrase,
body text, and the body's JSON parse when it is a JSON object of string
fields — `none` models a `json.JSONDecodeError`), or raises a timeout, a
connection error, or an unexpected exception, each caught by the probe. -/

/-- Observable outcome of one HTTP request made by a probe. -/
inductive HttpOutcome where
  | timeout : HttpOutcome
  | connectionError : String → HttpOutcome
  | response : Nat → String → String → Option (List (String × String)) → HttpOutcome
  | unexpectedError : String → HttpOutcome
deriving Repr, DecidableEq

/-! ## Frontend probe (`health-check.py`, `check_frontend_health`) -/

/-- The `checks` sub-dict of the frontend health result. -/
structure FrontendChecks where
  accessible : Bool
  serves_html : Bool
  static_assets : Bool
deriving Repr, DecidableEq

/-- Result dict of `check_frontend_health` (the fields the logic writes;
`status_code` is `none` when no response was received). -/
structure FrontendHealthResult where
  healthy : Bool
  status_code : Option Nat
  error : Option String
  checks : FrontendChecks
deriving Repr, DecidableEq

/-- Embedding of `check_frontend_health` (health-check.py lines 34-96):
on HTTP 200 the page content is lower-cased and inspected for HTML markers
and asset references; `healthy` requires accessible plus HTML markers, and
`error` is only assigned on a non-200 status or a transport failure. -/
def check_frontend_health (timeout : Nat) (o : HttpOutcome) : FrontendHealthResult :=
  match o with
  | .response status reason text _ =>
    if status = 200 then
      let content := lowerStr text
      let accessible := true
      let serves_html := strContains content "html" || strContains content "doctype"
      let static_assets :=
        ([".css", ".js", "stylesheet", "script"] : List String).any
          (fun a => strContains content a)
      { healthy := accessible && serves_html, status_code := some status,
        error := none,
        checks := ⟨accessible, serves_html, static_assets⟩ }
    else
      { healthy := false, status_code := some status,
        error := some ("HTTP " ++ toString status ++ ": " ++ reason),
        checks := ⟨false, false, false⟩ }
  | .timeout =>
    { healthy := false, status_code := none,
      error := some ("Request timeout after " ++ toString timeout ++ "s"),
      checks := ⟨false, false, false⟩ }
  | .connectionError msg =>
    { healthy := false, status_code := none,
      error := some ("Connection error: " ++ msg),
      checks := ⟨false, false, false⟩ }
  | .unexpectedError msg =>
    { healthy := false, status_code := none,
      error := some ("Unexpected error: " ++ msg),
      checks := ⟨false, false, false⟩ }

/-! ## Backend basic-health probe (`verify-backend.py`,
`check_basic_health_endpoint`) -/

/-- Result dict of `check_basic_health_endpoint` (`health_data` is the
parsed JSON body, `{}` when none was parsed). -/
structure BasicHealthResult where
  success : Bool
  status_code : Option Nat
  health_data : List (String × String)
  error : Option String
deriving Repr, DecidableEq

/-- Embedding of `check_basic_health_endpoint` (verify-backend.py lines
38-90): success iff HTTP 200 with a JSON body; every other outcome sets
`error`. -/
def check_basic_health_endpoint (timeout : Nat) (o : HttpOutcome) : BasicHealthResult :=
  match o with
  | .response status reason _ json =>
    if status = 200 then
      match json with
      | some h =>
        { success := true, status_code := some status, health_data := h,
          error := none }
      | none =>
        { success := false, status_code := some status, health_data := [],
          error := some "Health endpoint returned non-JSON response" }
    else
      { success := false, status_code := some status, health_data := [],
        error := some ("HTTP " ++ toString status ++ ": " ++ reason) }
  | .timeout =>
    { success := false, status_code := none, health_data := [],
      error := some ("Request timeout after " ++ toString timeout ++ "s") }
  | .connectionError msg =>
    { success := false, status_code := none, health_data := [],
      error := some ("Connection error: " ++ msg) }
  | .unexpectedError msg =>
    { success := false, status_code := none, health_data := [],
      error := some ("Unexpected error: " ++ msg) }

/-! ## Multi-service aggregation (`health-check.py`,
`run_comprehensive_health_check`) -/

/-- Projection of a per-service result dict to the two keys the
aggregation reads: `healthy` and `error` (both always initialised by every
checker, `error` possibly to `None`). -/
structure ServiceResult where
  healthy : Bool
  error : Option String
deriving Repr, DecidableEq

/-- Issue line appended for an unhealthy service:
`f"{service_name}: {error_msg}"` where `error_msg` is the service's
`error` value (the `dict.get` default is unreachable since the key is
always present; a `None` value renders as `"None"`). -/
def serviceIssue (name : String) (r : ServiceResult) : String :=
  name ++ ": " ++ pyStrOfOpt r.error

/-- Embedding of the issue-collection loop (health-check.py lines
320-323): scan the services in order, appending an issue line for each
unhealthy one. -/
def collectIssues (services : List (String × ServiceResult)) : List String :=
  services.foldl
    (fun issues p => if p.2.healthy then issues else issues ++ [serviceIssue p.1 p.2])
    []

/-- Aggregate report of `run_comprehensive_health_check` (the fields the
logic computes). -/
structure HealthCheckResults where
  overall_healthy : Bool
  healthy_services : Nat
  total_services : Nat
  issues : List String
deriving Repr, DecidableEq

/-- Embedding of `run_comprehensive_health_check` (health-check.py lines
281-333), parametrised by the three per-service results (frontend,
backend, database, in the insertion order of the `services` dict). -/
def run_comprehensive_health_check
    (frontend backend database : ServiceResult) : HealthCheckResults :=
  let services : List (String × ServiceResult) :=
    [("frontend", frontend), ("backend", backend), ("database", database)]
  { overall_healthy := frontend.healthy && backend.healthy && database.healthy,
    healthy_services :=
      (if frontend.healthy then 1 else 0) + (if backend.healthy then 1 else 0)
        + (if database.healthy then 1 else 0),
    total_services := 3,
    issues := collectIssues services }

/-! ## Static-asset probe (`verify-frontend.py`, `check_static_assets`) -/

/-- Result dict of `check_static_assets` (the fields the claims read). -/
structure StaticAssetsResult where
  success : Bool
  accessible_assets : Nat
  total_assets : Nat
  error : Option String
deriving Repr, DecidableEq

/-- Embedding of `check_static_assets` (verify-frontend.py lines 135-227).
`assetsFound` models the deduplicated list of asset references extracted
from the fetched page by the CSS/JS/image regexes (`list(set(...))`), and
`accessible a` models whether the `HEAD` request for asset `a` came back
with status 200 (`false` also covers a raised exception).  Only the first
five found assets are tested; success requires either no assets at all or
at least one accessible tested asset. -/
def check_static_assets (status : Nat) (assetsFound : List String)
    (accessible : String → Bool) : StaticAssetsResult :=
  if status = 200 then
    let total := assetsFound.length
    if total > 0 then
      let assets_to_test := assetsFound.take 5
      let acc := (assets_to_test.filter accessible).length
      if acc > 0 then
        { success := true, accessible_assets := acc, total_assets := total,
          error := none }
      else
        { success := false, accessible_assets := acc, total_assets := total,
          error := some "Static assets found but none are accessible" }
    else
      { success := true, accessible_assets := 0, total_assets := 0,
        error := none }
  else
    { success := false, accessible_assets := 0, total_assets := 0,
      error := some ("HTTP " ++ toString status ++ ": Cannot retrieve content") }

/-! ## Deployment-status reporter (`deployment-status.py`) -/

/-- One deployment-log entry (the fields the summary logic reads). -/
structure DeploymentEvent where
  event_type : String
  message : String
  status : String
deriving Repr, DecidableEq

/-- The `events_by_status` counter dict, initialised to zero for exactly
the four recognised statuses. -/
structure EventCounts where
  success : Nat
  failed : Nat
  warning : Nat
  info : Nat
deriving Repr, DecidableEq

/-- One step of the counting loop: `if status in events_by_status:
events_by_status[status] += 1` — any other status is left uncounted. -/
def tallyEvent (c : EventCounts) (e : DeploymentEvent) : EventCounts :=
  if e.status = "success" then { c with success := c.success + 1 }
  else if e.status = "failed" then { c with failed := c.failed + 1 }
  else if e.status = "warning" then { c with warning := c.warning + 1 }
  else if e.status = "info" then { c with info := c.info + 1 }
  else c

/-- Status counts over the whole deployment log. -/
def eventsByStatus (log : List DeploymentEvent) : EventCounts :=
  log.foldl tallyEvent ⟨0, 0, 0, 0⟩

/-- Overall-status rule (deployment-status.py lines 115-119). -/
def overallStatus (c : EventCounts) : String :=
  if c.failed > 0 then "failed"
  else if c.warning > 0 then "warning"
  else "success"

/-- Summary record of `generate_deployment_summary` (the fields the
claims read). -/
structure DeploymentSummary where
  overall_status : String
  events_summary : EventCounts
deriving Repr, DecidableEq

/-- Embedding of `generate_deployment_summary` (deployment-status.py
lines 95-158), restricted to the status analysis. -/
def generate_deployment_summary (log : List DeploymentEvent) : DeploymentSummary :=
  let c := eventsByStatus log
  { overall_status := overallStatus c, events_summary := c }

/-- Embedding of `log_event` (deployment-status.py lines 33-51): the
event is appended to the log unconditionally, whatever its status
string. -/
def log_event (log : List DeploymentEvent)
    (event_type message status : String) : List DeploymentEvent :=
  log ++ [{ event_type := event_type, message := message, status := status }]

/-! ## Retry driver (`health-check.py`, `main`, lines 394-419)

The driver loop `for attempt in range(retry)` sleeps before every attempt
except the first, runs the checker, and exits with the check's verdict as
soon as the check is healthy or the last attempt is reached.  If `retry`
is 0 the loop body never runs and `main` falls through, ending the
process with exit status 0. -/

/-- Observable outcome of the retry loop: how many times the checker ran,
how many delays were taken, and whether the process exit signalled
success. -/
structure RetryOutcome where
  invocations : Nat
  delays : Nat
  exitSuccess : Bool
deriving Repr, DecidableEq

/-- The retry loop from iteration `attempt` on, where `healthy i` is the
checker's verdict on its `i`-th invocation (0-based).  Counts are
absolute: exiting at attempt `e` means `e + 1` invocations and `e` delays
(one before each attempt after the first). -/
def retryFrom (healthy : Nat → Bool) (retry : Nat) (attempt : Nat) : RetryOutcome :=
  if h : attempt < retry then
    if healthy attempt = true ∨ attempt = retry - 1 then
      { invocations := attempt + 1, delays := attempt,
        exitSuccess := healthy attempt }
    else
      retryFrom healthy retry (attempt + 1)
  else
    { invocations := attempt, delays := attempt - 1, exitSuccess := true }
termination_by retry - attempt
decreasing_by omega

/-- The whole driver: the loop starting at attempt 0. -/
def retryDriver (healthy : Nat → Bool) (retry : Nat) : RetryOutcome :=
  retryFrom healthy retry 0

/-! ## Claims about the CRUD probe and the backend verdict -/

/-- C1, counterexample: when creation succeeds (with a truthy id) but
read, update and delete all fail, `check_crud_operations` still reports
overall success (`operations_working = 1` from create alone), while the
read step is recorded as failed — refuting "success iff the read step
succeeded". -/
theorem crud_success_not_read_cex :
    (check_crud_operations true (some 1) false false false).success = true ∧
    List.lookup "read"
      (check_crud_operations true (some 1) false false false).operation_results
      = some false := by
  decide

/-- C1, amended: the probe's overall success flag equals the create step's
success flag (create alone makes `operations_working ≥ 1`, and when create
fails no other operation runs, so none can). -/
theorem crud_success_iff_create (createSucc : Bool) (createId : Option Int)
    (readSucc updateSucc deleteSucc : Bool) :
    (check_crud_operations createSucc createId
        readSucc updateSucc deleteSucc).success = createSucc := by
  cases createSucc <;>
    cases h : pyTruthyOptInt createId <;>
      cases readSucc <;> cases updateSucc <;> cases deleteSucc <;>
        simp [check_crud_operations, h]

/-- C2: when the create step fails, the read/update/delete steps are not
executed (the probe result does not depend on their hypothetical
outcomes), only one operation is tested, and none of read/update/delete is
recorded in `operation_results` — in particular none is recorded as
failed. -/
theorem crud_create_fail_skips_rest (createId : Option Int)
    (r u d r2 u2 d2 : Bool) :
    check_crud_operations false createId r u d
      = check_crud_operations false createId r2 u2 d2 ∧
    (check_crud_operations false createId r u d).operations_tested = 1 ∧
    List.lookup "read"
      (check_crud_operations false createId r u d).operation_results = none ∧
    List.lookup "update"
      (check_crud_operations false createId r u d).operation_results = none ∧
    List.lookup "delete"
      (check_crud_operations false createId r u d).operation_results = none := by
  exact ⟨rfl, rfl, rfl, rfl, rfl⟩

/-- C3: the backend report's `overall_healthy` is true iff the three
critical probes (`basic_health_endpoint`, `database_connectivity`,
`api_endpoints`) all succeeded; the outcomes of
`detailed_health_endpoint` and `crud_operations` (and whether CRUD is
included at all) never affect it. -/
theorem backend_overall_healthy_iff_critical
    (basicSucc detailedSucc dbSucc apiSucc crudSucc include_crud : Bool) :
    (run_comprehensive_backend_check basicSucc detailedSucc dbSucc apiSucc
        crudSucc include_crud).overall_healthy
      = (basicSucc && dbSucc && apiSucc) := by
  cases basicSucc <;> cases detailedSucc <;> cases dbSucc <;> cases apiSucc <;>
    cases crudSucc <;> cases include_crud <;> decide

/-! ## Claims about the multi-service aggregation -/

/-- Helper: the issue-collection fold appends, in service order, exactly
one formatted line per unhealthy service. -/
theorem collectIssues_eq (services : List (String × ServiceResult)) :
    collectIssues services
      = (services.filter (fun p => !p.2.healthy)).map
          (fun p => serviceIssue p.1 p.2) := by
  suffices H : ∀ acc : List String,
      services.foldl
          (fun issues p =>
            if p.2.healthy then issues else issues ++ [serviceIssue p.1 p.2])
          acc
        = acc ++ (services.filter (fun p => !p.2.healthy)).map
            (fun p => serviceIssue p.1 p.2) by
    simpa [collectIssues] using H []
  induction services with
  | nil => intro acc; simp
  | cons hd tl ih =>
    intro acc
    by_cases h : hd.2.healthy
    · simp [List.foldl_cons, h, ih]
    · simp [List.foldl_cons, h, ih]

/-- C4: the aggregate's `overall_healthy` is the conjunction of the three
reports' `healthy` flags, and `issues` holds exactly one entry
`"{service}: {error}"` for each unhealthy service, in service order
(healthy services contribute none). -/
theorem aggregate_overall_and_issues (f b d : ServiceResult) :
    (run_comprehensive_health_check f b d).overall_healthy
      = (f.healthy && b.healthy && d.healthy) ∧
    (run_comprehensive_health_check f b d).issues
      = (([("frontend", f), ("backend", b), ("database", d)] :
            List (String × ServiceResult)).filter
            (fun p => !p.2.healthy)).map
          (fun p => p.1 ++ ": " ++ pyStrOfOpt p.2.error) := by
  refine ⟨rfl, ?_⟩
  simp [run_comprehensive_health_check, collectIssues_eq, serviceIssue]

/-- C9: the frontend probe on an HTTP 200 response whose content carries
no HTML marker ends unhealthy with `error` still `None`, and the
aggregation then renders the issue line as the literal `"frontend: None"`
(the error key is always present, so the `"Unknown error"` fallback never
applies). -/
theorem issues_entry_none_error :
    ((check_frontend_health 30 (.response 200 "OK" "plain text body" none)).healthy
        = false ∧
     (check_frontend_health 30 (.response 200 "OK" "plain text body" none)).error
        = none) ∧
    ∀ f b d : ServiceResult, f.healthy = false → f.error = none →
      ((run_comprehensive_health_check f b d).issues).head?
        = some "frontend: None" := by
  constructor
  · constructor <;> decide
  · intro f b d hh he
    simp [run_comprehensive_health_check, collectIssues_eq, serviceIssue,
      hh, he, pyStrOfOpt]

/-- Witness for C9 at the outcome of the frontend probe on a 200 non-HTML
response. -/
theorem issues_entry_none_error_witness :
    ((run_comprehensive_health_check ⟨false, none⟩ ⟨true, none⟩
        ⟨true, none⟩).issues).head? = some "frontend: None" :=
  issues_entry_none_error.2 ⟨false, none⟩ ⟨true, none⟩ ⟨true, none⟩ rfl rfl

/-! ## Claims about the static-asset probe -/

/-- C7: on an HTTP 200 page with zero asset references the probe succeeds
with `total_assets = 0`; when assets are found but every tested asset
(the first five) is unreachable, the probe fails with `error` set. -/
theorem static_assets_policy :
    (∀ accessible : String → Bool,
        check_static_assets 200 [] accessible
          = { success := true, accessible_assets := 0, total_assets := 0,
              error := none }) ∧
    ∀ (assets : List String) (accessible : String → Bool), assets ≠ [] →
      (∀ a ∈ assets.take 5, accessible a = false) →
        (check_static_assets 200 assets accessible).success = false ∧
        ((check_static_assets 200 assets accessible).error).isSome = true := by
  constructor
  · intro accessible; rfl
  · intro assets accessible hne hall
    have hlen : 0 < assets.length := List.length_pos.mpr hne
    have hfil : (assets.take 5).filter accessible = [] := by
      rw [List.filter_eq_nil_iff]
      intro a ha
      simp [hall a ha]
    simp [check_static_assets, hfil, hlen]

/-- Witness for C7: an empty asset list succeeds; a single unreachable
stylesheet reference fails with an error. -/
theorem static_assets_policy_witness :
    check_static_assets 200 ([] : List String) (fun _ => false)
        = { success := true, accessible_assets := 0, total_assets := 0,
            error := none } ∧
    ((check_static_assets 200 ["/app.css"] (fun _ => false)).success = false ∧
     ((check_static_assets 200 ["/app.css"] (fun _ => false)).error).isSome
        = true) :=
  ⟨static_assets_policy.1 (fun _ => false),
   static_assets_policy.2 ["/app.css"] (fun _ => false) (by decide) (by decide)⟩

/-! ## Claims about probe totality at the boundary -/

/-- C8, counterexample: the frontend probe on an HTTP 200 response whose
body is not recognised as HTML (a malformed body for this
content-inspecting probe) returns healthy = false with the `error` field
NOT set — refuting "every failure mode yields success=false AND error
set". -/
theorem frontend_probe_error_unset_cex :
    (check_frontend_health 30 (.response 200 "OK" "just some text" none)).healthy
      = false ∧
    (check_frontend_health 30 (.response 200 "OK" "just some text" none)).error
      = none := by
  constructor <;> decide

/-- C8, amended: both probes are total — every transport outcome yields a
result record.  The backend basic-health probe classifies every outcome:
timeout, connection error, unexpected exception, non-200 status, and a
200 response with a non-JSON body each yield `success = false` with
`error` set, while a 200 response with a JSON body yields `success =
true` with `error` unset.  The frontend probe sets `error` with
`healthy = false` on timeout, connection error, unexpected exception and
non-200 status, but never sets `error` on a 200 response — a 200 body
without HTML markers leaves `healthy = false` with `error` unset. -/
theorem probes_total_amended :
    (∀ t : Nat, (check_basic_health_endpoint t .timeout).success = false ∧
        ((check_basic_health_endpoint t .timeout).error).isSome = true) ∧
    (∀ (t : Nat) (m : String),
        (check_basic_health_endpoint t (.connectionError m)).success = false ∧
        ((check_basic_health_endpoint t (.connectionError m)).error).isSome
          = true) ∧
    (∀ (t : Nat) (m : String),
        (check_basic_health_endpoint t (.unexpectedError m)).success = false ∧
        ((check_basic_health_endpoint t (.unexpectedError m)).error).isSome
          = true) ∧
    (∀ (t s : Nat) (reason text : String)
        (json : Option (List (String × String))), s ≠ 200 →
          (check_basic_health_endpoint t (.response s reason text json)).success
            = false ∧
          ((check_basic_health_endpoint t (.response s reason text json)).error).isSome
            = true) ∧
    (∀ (t : Nat) (reason text : String),
        (check_basic_health_endpoint t (.response 200 reason text none)).success
          = false ∧
        ((check_basic_health_endpoint t (.response 200 reason text none)).error).isSome
          = true) ∧
    (∀ (t : Nat) (reason text : String) (h : List (String × String)),
        (check_basic_health_endpoint t (.response 200 reason text (some h))).success
          = true ∧
        (check_basic_health_endpoint t (.response 200 reason text (some h))).error
          = none) ∧
    (∀ t : Nat, (check_frontend_health t .timeout).healthy = false ∧
        ((check_frontend_health t .timeout).error).isSome = true) ∧
    (∀ (t : Nat) (m : String),
        (check_frontend_health t (.connectionError m)).healthy = false ∧
        ((check_frontend_health t (.connectionError m)).error).isSome = true) ∧
    (∀ (t : Nat) (m : String),
        (check_frontend_health t (.unexpectedError m)).healthy = false ∧
        ((check_frontend_health t (.unexpectedError m)).error).isSome = true) ∧
    (∀ (t s : Nat) (reason text : String)
        (json : Option (List (String × String))), s ≠ 200 →
          (check_frontend_health t (.response s reason text json)).healthy
            = false ∧
          ((check_frontend_health t (.response s reason text json)).error).isSome
            = true) ∧
    (∀ (t : Nat) (reason text : String)
        (json : Option (List (String × String))),
        (check_frontend_health t (.response 200 reason text json)).error
          = none) := by
  refine ⟨?_, ?_, ?_, ?_, ?_, ?_, ?_, ?_, ?_, ?_, ?_⟩
  · intro t; exact ⟨rfl, rfl⟩
  · intro t m; exact ⟨rfl, rfl⟩
  · intro t m; exact ⟨rfl, rfl⟩
  · intro t s reason text json hs
    simp [check_basic_health_endpoint, hs]
  · intro t reason text; exact ⟨rfl, rfl⟩
  · intro t reason text h; exact ⟨rfl, rfl⟩
  · intro t; exact ⟨rfl, rfl⟩
  · intro t m; exact ⟨rfl, rfl⟩
  · intro t m; exact ⟨rfl, rfl⟩
  · intro t s reason text json hs
    simp [check_frontend_health, hs]
  · intro t reason text json
    simp [check_frontend_health]

/-- Witness for C8 at concrete outcomes of each hypothesised clause: the
backend probe on a 503 response and on a 200 non-JSON response, and the
frontend probe on a 500 response. -/
theorem probes_total_amended_witness :
    ((check_basic_health_endpoint 30 (.response 503 "Unavailable" "" none)).success
        = false ∧
     ((check_basic_health_endpoint 30 (.response 503 "Unavailable" "" none)).error).isSome
        = true) ∧
    ((check_basic_health_endpoint 30 (.response 200 "OK" "oops" none)).success
        = false ∧
     ((check_basic_health_endpoint 30 (.response 200 "OK" "oops" none)).error).isSome
        = true) ∧
    ((check_frontend_health 30 (.response 500 "Server Error" "x" none)).healthy
        = false ∧
     ((check_frontend_health 30 (.response 500 "Server Error" "x" none)).error).isSome
        = true) :=
  ⟨probes_total_amended.2.2.2.1 30 503 "Unavailable" "" none (by decide),
   probes_total_amended.2.2.2.2.1 30 "OK" "oops",
   probes_total_amended.2.2.2.2.2.2.2.2.2.1 30 500 "Server Error" "x" none
     (by decide)⟩

/-! ## Claims about the deployment summary -/

/-- Helper: the counting fold tallies, per recognised status, exactly the
events carrying that status. -/
theorem foldl_tally (log : List DeploymentEvent) :
    ∀ c : EventCounts, log.foldl tallyEvent c =
      ⟨c.success + log.countP (fun e => e.status == "success"),
       c.failed + log.countP (fun e => e.status == "failed"),
       c.warning + log.countP (fun e => e.status == "warning"),
       c.info + log.countP (fun e => e.status == "info")⟩ := by
  induction log with
  | nil => intro c; simp
  | cons e tl ih =>
    intro c
    rw [List.foldl_cons, ih]
    by_cases h1 : e.status = "success"
    · simp [tallyEvent, h1, List.countP_cons]
      omega
    · by_cases h2 : e.status = "failed"
      · simp [tallyEvent, h1, h2, List.countP_cons]
        omega
      · by_cases h3 : e.status = "warning"
        · simp [tallyEvent, h1, h2, h3, List.countP_cons]
          omega
        · by_cases h4 : e.status = "info"
          · simp [tallyEvent, h1, h2, h3, h4, List.countP_cons]
            omega
          · simp [tallyEvent, h1, h2, h3, h4, List.countP_cons]

/-- C6: the summary's `overall_status` is `"failed"` when some event has
status `"failed"`, else `"warning"` when some event has status
`"warning"`, else `"success"`. -/
theorem deployment_overall_status_spec (log : List DeploymentEvent) :
    (generate_deployment_summary log).overall_status
      = (if log.any (fun e => e.status == "failed") then "failed"
         else if log.any (fun e => e.status == "warning") then "warning"
         else "success") := by
  have hc : eventsByStatus log =
      ⟨log.countP (fun e => e.status == "success"),
       log.countP (fun e => e.status == "failed"),
       log.countP (fun e => e.status == "warning"),
       log.countP (fun e => e.status == "info")⟩ := by
    simpa [eventsByStatus] using foldl_tally log ⟨0, 0, 0, 0⟩
  have hany : ∀ p : DeploymentEvent → Bool,
      (0 < log.countP p) ↔ log.any p = true := by
    intro p
    rw [List.countP_pos_iff, List.any_eq_true]
  rw [generate_deployment_summary]
  simp only [hc, overallStatus]
  by_cases hf : log.any (fun e => e.status == "failed") = true
  · rw [if_pos ((hany _).mpr hf), if_pos hf]
  · rw [if_neg (fun h => hf ((hany _).mp h)), if_neg hf]
    by_cases hw : log.any (fun e => e.status == "warning") = true
    · rw [if_pos ((hany _).mpr hw), if_pos hw]
    · rw [if_neg (fun h => hw ((hany _).mp h)), if_neg hw]

/-- C10: `log_event` appends the event whatever its status string, and
events whose status is outside {success, failed, warning, info} are
excluded from the summary counts, so a log of only such events yields all
counts zero and overall status `"success"`. -/
theorem unknown_status_events_ignored :
    (∀ (log : List DeploymentEvent) (et msg st : String),
        log_event log et msg st = log ++ [⟨et, msg, st⟩]) ∧
    ∀ log : List DeploymentEvent,
      (∀ e ∈ log,
          e.status ∉ (["success", "failed", "warning", "info"] : List String)) →
        (generate_deployment_summary log).events_summary = ⟨0, 0, 0, 0⟩ ∧
        (generate_deployment_summary log).overall_status = "success" := by
  refine ⟨fun log et msg st => rfl, ?_⟩
  intro log hout
  have hz : ∀ s : String, s ∈ (["success", "failed", "warning", "info"] : List String) →
      log.countP (fun e => e.status == s) = 0 := by
    intro s hs
    rw [List.countP_eq_zero]
    intro e he
    have := hout e he
    simp only [beq_iff_eq]
    intro hcontra
    rw [← hcontra] at hs
    exact this hs
  have hc : eventsByStatus log = ⟨0, 0, 0, 0⟩ := by
    have h := foldl_tally log ⟨0, 0, 0, 0⟩
    rw [eventsByStatus, h,
      hz "success" (by decide), hz "failed" (by decide),
      hz "warning" (by decide), hz "info" (by decide)]
  constructor
  · rw [generate_deployment_summary]
    simpa using hc
  · rw [generate_deployment_summary]
    simp only [hc, overallStatus]
    rfl

/-- Witness for C10: a log holding a single event with the unrecognised
status `"error"` counts nothing and summarises as success. -/
theorem unknown_status_events_ignored_witness :
    (generate_deployment_summary
        [⟨"service_deployment", "deploy broke", "error"⟩]).events_summary
      = ⟨0, 0, 0, 0⟩ ∧
    (generate_deployment_summary
        [⟨"service_deployment", "deploy broke", "error"⟩]).overall_status
      = "success" :=
  unknown_status_events_ignored.2
    [⟨"service_deployment", "deploy broke", "error"⟩] (by decide)

/-! ## Claims about the retry driver -/

/-- Helper: full characterisation of the retry loop from any reachable
iteration, for a checker that is unhealthy on its first `k - 1` calls and
healthy on the `k`-th. -/
theorem retryFrom_spec (healthy : Nat → Bool) (k m : Nat) (hk : 1 ≤ k)
    (hlow : ∀ i, i < k - 1 → healthy i = false)
    (hhit : healthy (k - 1) = true) :
    ∀ d a, k - 1 - a = d → a < m → a ≤ k - 1 →
      retryFrom healthy m a
        = if k ≤ m then ⟨k, k - 1, true⟩ else ⟨m, m - 1, false⟩ := by
  intro d
  induction d with
  | zero =>
    intro a ha ham hak
    have hae : a = k - 1 := by omega
    subst hae
    rw [retryFrom, dif_pos ham, if_pos (Or.inl hhit), hhit,
      if_pos (by omega : k ≤ m)]
    have h1 : k - 1 + 1 = k := by omega
    rw [h1]
  | succ d ih =>
    intro a ha ham hak
    have halt : a < k - 1 := by omega
    have hha : healthy a = false := hlow a halt
    rw [retryFrom, dif_pos ham]
    by_cases hm1 : a = m - 1
    · rw [if_pos (Or.inr hm1), if_neg (by omega : ¬ k ≤ m), hha]
      have h1 : a + 1 = m := by omega
      rw [h1, hm1]
    · have hcond : ¬ (healthy a = true ∨ a = m - 1) := by
        rintro (h | h)
        · rw [hha] at h; exact Bool.noConfusion h
        · exact hm1 h
      rw [if_neg hcond]
      exact ih (a + 1) (by omega) (by omega) (by omega)

/-- C5, counterexample: with maximum attempts `m = 0` (and a checker
healthy from its very first call, so `k = 1 > m`), the driver performs 0
invocations but the process exits with SUCCESS (the loop body never runs
and `main` falls through to a normal exit), refuting "if m < k it ...
exits with failure". -/
theorem retry_zero_attempts_cex :
    retryDriver (fun _ => true) 0 = ⟨0, 0, true⟩ := by
  rw [retryDriver, retryFrom]
  rfl

/-- C5, amended: for a checker unhealthy on its first `k - 1` invocations
and healthy on the `k`-th, with configured maximum attempts `m ≥ 1`: if
`m ≥ k` the driver performs exactly `k` invocations and `k - 1` delays
(none before the first attempt or after the last) and exits with success;
if `1 ≤ m < k` it performs exactly `m` invocations and `m - 1` delays and
exits with failure.  (With `m = 0` it performs no invocations and exits
with success.) -/
theorem retry_driver_spec (healthy : Nat → Bool) (k m : Nat)
    (hk : 1 ≤ k) (hm : 1 ≤ m)
    (hlow : ∀ i, i < k - 1 → healthy i = false)
    (hhit : healthy (k - 1) = true) :
    (k ≤ m → retryDriver healthy m = ⟨k, k - 1, true⟩) ∧
    (m < k → retryDriver healthy m = ⟨m, m - 1, false⟩) := by
  have h := retryFrom_spec healthy k m hk hlow hhit (k - 1 - 0) 0 rfl
    (by omega) (by omega)
  constructor
  · intro hkm
    rw [retryDriver, h, if_pos hkm]
  · intro hmk
    rw [retryDriver, h, if_neg (by omega : ¬ k ≤ m)]

/-- Witness for C5 with a checker healthy from its second call (`k = 2`):
three allowed attempts succeed after one retry; a single allowed attempt
fails. -/
theorem retry_driver_spec_witness :
    retryDriver (fun i => !(i == 0)) 3 = ⟨2, 1, true⟩ ∧
    retryDriver (fun i => !(i == 0)) 1 = ⟨1, 0, false⟩ :=
  ⟨(retry_driver_spec (fun i => !(i == 0)) 2 3 (by decide) (by decide)
      (by decide) (by decide)).1 (by decide),
   (retry_driver_spec (fun i => !(i == 0)) 2 1 (by decide) (by decide)
      (by decide) (by decide)).2 (by decide)⟩
